import Mathlib

/-!
Verification of the MS2 accounts/ledger/transfer microservice.

The development shallowly embeds the data model (src/models.py), the CRUD and
transfer helpers (src/cruds.py) and the HTTP handlers (src/routers/accounts.py,
src/routers/internal.py) as pure Lean functions over an explicit database
state, and proves the testable properties of the specification against them.

Modelling conventions:
- Identifiers (account ids, ledger-entry ids, request/tx ids) are strings, as
  in the service every id is serialised to a string for comparison and
  sorting (Python sorts UUIDs with key=str).
- Monetary values (balance, amount) are exact integers.  The store declares
  them Numeric(18,2), an exact fixed-point type; we work in minor units so
  that arithmetic is exact.  (Python performs the arithmetic through float,
  which the specification itself flags as a latent rounding risk; the
  business logic is independent of that representation.)
- Timestamps are natural numbers (datetime.utcnow() becomes an explicit
  clock argument).
- Database sessions become explicit state passing: a transfer either raises
  before any write (returning an error and, implicitly, the unchanged
  state - the code raises before commit and rolls back on storage errors)
  or commits and returns the new state.
- Fresh primary keys (uuid4 defaults) and the current time are passed in as
  explicit arguments.
- Python string methods are embedded as executable Lean functions over the
  character list: pyToUpper models str.upper, pyLe models the <= of Python
  string comparison (code-point lexicographic order), used by sorted().
- The inter-service key check and the fire-and-forget MS3 notification in
  the transfer handler are not modelled: the spec scopes them out as thin
  I/O collaborators with no effect on the transfer outcome.
-/

/-- Python str.upper, character by character (ASCII uppercase of each char). -/
def pyToUpper (s : String) : String := ⟨s.data.map Char.toUpper⟩

/-- Lexicographic code-point comparison of character lists: Python string LE. -/
def strLeAux : List Char → List Char → Bool
  | [], _ => true
  | _ :: _, [] => false
  | c :: cs, d :: ds =>
    if c.toNat < d.toNat then true
    else if d.toNat < c.toNat then false
    else strLeAux cs ds

/-- Python string comparison a <= b (code-point lexicographic order). -/
def pyLe (a b : String) : Bool := strLeAux a.data b.data

-- ============================================================
-- Data model (src/models.py)
-- ============================================================

/-- One row of the accounts table (class Account, src/models.py). -/
structure Account where
  id : String
  customer_id : String
  type : String
  status : String
  currency : String
  opened_at : Nat
  closed_at : Option Nat
  balance : Int
deriving DecidableEq, Repr

/-- One row of the ledger_entries table (class LedgerEntry, src/models.py). -/
structure LedgerEntry where
  id : String
  account_id : String
  tx_id : Option String
  direction : String
  amount : Int
  created_at : Nat
deriving DecidableEq, Repr

/-- The persistent state: the two tables of the service database. -/
structure DB where
  accounts : List Account
  ledger : List LedgerEntry
deriving DecidableEq, Repr

-- ============================================================
-- Query helpers (SQLAlchemy query idioms used by the service)
-- ============================================================

/-- db.query(Account).filter(Account.id == aid).first() -/
def findAccount (db : DB) (aid : String) : Option Account :=
  db.accounts.find? (fun a => a.id == aid)

/-- float(acc.balance) if acc else 0.0 - the balance-read idiom of the
replay path of the transfer handler. -/
def balanceOf (db : DB) (aid : String) : Int :=
  ((findAccount db aid).map Account.balance).getD 0

/-- Committing a new balance on the row whose id is aid. -/
def setBalance (db : DB) (aid : String) (b : Int) : DB :=
  { db with accounts := db.accounts.map (fun a => if a.id == aid then { a with balance := b } else a) }

/-- Committing a mutated account object back onto its row. -/
def storeAccount (db : DB) (acc : Account) : DB :=
  { db with accounts := db.accounts.map (fun a => if a.id == acc.id then acc else a) }

/-- Filter of the idempotency query for the DEBIT leg:
LedgerEntry.tx_id == request_id AND LedgerEntry.direction == DEBIT. -/
def debitFor (rid : String) (e : LedgerEntry) : Bool :=
  e.tx_id == some rid && e.direction == "DEBIT"

/-- Filter of the idempotency query for the CREDIT leg. -/
def creditFor (rid : String) (e : LedgerEntry) : Bool :=
  e.tx_id == some rid && e.direction == "CREDIT"

/-- Filter of the any-direction idempotency query of the transfer handler:
LedgerEntry.tx_id == request_id. -/
def entryFor (rid : String) (e : LedgerEntry) : Bool :=
  e.tx_id == some rid

-- ============================================================
-- ACCOUNTS - CRUD (src/cruds.py, src/routers/accounts.py)
-- ============================================================

/-- create_account (src/cruds.py 16-36): inserts a new account with
balance 0 and status ACTIVE; type and currency are uppercased. -/
def create_account (db : DB) (customer_id acc_type currency : String)
    (new_id : String) (opened_at : Nat) : DB × Account :=
  let account : Account :=
    { id := new_id
      customer_id := customer_id
      type := pyToUpper acc_type
      status := "ACTIVE"
      currency := pyToUpper currency
      opened_at := opened_at
      closed_at := none
      balance := 0 }
  ({ db with accounts := db.accounts ++ [account] }, account)

/-- update_account_status (src/cruds.py 61-76, identical inline logic in
src/routers/accounts.py 77-93): sets the status unconditionally; whenever the
new status is CLOSED, closed_at is (re)written to the current time. -/
def update_account_status (db : DB) (account_id new_status : String)
    (now : Nat) : Option (DB × Account) :=
  match findAccount db account_id with
  | none => none
  | some acc =>
    let st := pyToUpper new_status
    let acc2 : Account :=
      if st == "CLOSED" then { acc with status := st, closed_at := some now }
      else { acc with status := st }
    some (storeAccount db acc2, acc2)

/-- create_ledger_entry (src/cruds.py 121-139): appends one ledger row. -/
def create_ledger_entry (db : DB) (account_id direction : String)
    (amount : Int) (tx_id : Option String) (new_id : String) (now : Nat) :
    DB × LedgerEntry :=
  let entry : LedgerEntry :=
    { id := new_id
      account_id := account_id
      tx_id := tx_id
      direction := pyToUpper direction
      amount := amount
      created_at := now }
  ({ db with ledger := db.ledger ++ [entry] }, entry)

-- ============================================================
-- TRANSFER - RULES & TX (src/cruds.py 142-262)
-- ============================================================

/-- Business exception of the transfer path (class TransferError). -/
structure TransferError where
  message : String
  http_status : Nat
deriving DecidableEq, Repr

/-- sorted([a_id, b_id], key=lambda x: str(x)) on the two account ids
(src/cruds.py 163, src/routers/internal.py 108).  Python sorted is stable and
compares the id strings by code points. -/
def ids_sorted (a b : String) : String × String :=
  if pyLe a b then (a, b) else (b, a)

/-- The result quadruple of a transfer:
(debit_entry, credit_entry, new_from_balance, new_to_balance), together with
the committed database state. -/
abbrev TransferOk := DB × LedgerEntry × LedgerEntry × Int × Int

/-- lock_accounts_for_update (src/cruds.py 158-171): locks the two rows in
sorted-id order, then returns them in semantic (from, to) order. -/
def lock_accounts_for_update (db : DB) (a_id b_id : String) :
    Except TransferError (Account × Account) :=
  match findAccount db (ids_sorted a_id b_id).1, findAccount db (ids_sorted a_id b_id).2 with
  | some acc_a, some acc_b =>
      if acc_a.id == a_id then .ok (acc_a, acc_b) else .ok (acc_b, acc_a)
  | _, _ => .error ⟨"Account not found", 404⟩

/-- The try block of apply_transfer_atomic (src/cruds.py 209-252): lock both
accounts, validate status, currency and funds, then insert the two entries
and commit the updated balances.  When from and to are the same row the two
SQLAlchemy queries return the same identity-mapped object, so the credit
reads the balance already decremented by the debit; the model threads that
aliasing through to_balance_read. -/
def apply_transfer_tx (db : DB) (request_id from_account_id to_account_id : String)
    (amount : Int) (currency : String) (new_debit_id new_credit_id : String)
    (now : Nat) : Except TransferError TransferOk :=
  match lock_accounts_for_update db from_account_id to_account_id with
  | .error e => .error e
  | .ok (from_acc, to_acc) =>
    if from_acc.status != "ACTIVE" then
      .error ⟨"Origin account is not ACTIVE (status=" ++ from_acc.status ++ ")", 422⟩
    else if to_acc.status != "ACTIVE" then
      .error ⟨"Destination account is not ACTIVE (status=" ++ to_acc.status ++ ")", 422⟩
    else if from_acc.currency != to_acc.currency || from_acc.currency != pyToUpper currency then
      .error ⟨"Currency mismatch (from=" ++ from_acc.currency ++ ", to=" ++ to_acc.currency
                ++ ", req=" ++ currency ++ ")", 422⟩
    else if from_acc.balance < amount then
      .error ⟨"Insufficient funds", 400⟩
    else
      let debit : LedgerEntry :=
        { id := new_debit_id, account_id := from_acc.id, tx_id := some request_id
          direction := "DEBIT", amount := amount, created_at := now }
      let credit : LedgerEntry :=
        { id := new_credit_id, account_id := to_acc.id, tx_id := some request_id
          direction := "CREDIT", amount := amount, created_at := now }
      let to_balance_read : Int :=
        if to_acc.id == from_acc.id then from_acc.balance - amount else to_acc.balance
      let db1 := setBalance db from_acc.id (from_acc.balance - amount)
      let db2 := setBalance db1 to_acc.id (to_balance_read + amount)
      let db3 : DB := { db2 with ledger := db2.ledger ++ [debit, credit] }
      .ok (db3, debit, credit, balanceOf db3 from_acc.id, balanceOf db3 to_acc.id)

/-- apply_transfer_atomic (src/cruds.py 174-261): amount guard, idempotency
lookup of both legs, replay when both already exist, else the locked
transaction apply_transfer_tx. -/
def apply_transfer_atomic (db : DB) (request_id from_account_id to_account_id : String)
    (amount : Int) (currency : String) (new_debit_id new_credit_id : String)
    (now : Nat) : Except TransferError TransferOk :=
  if amount ≤ 0 then .error ⟨"Amount must be > 0", 422⟩
  else
    match db.ledger.find? (debitFor request_id), db.ledger.find? (creditFor request_id) with
    | some existing_debit, some existing_credit =>
        .ok (db, existing_debit, existing_credit,
             balanceOf db from_account_id, balanceOf db to_account_id)
    | _, _ =>
        apply_transfer_tx db request_id from_account_id to_account_id amount currency
          new_debit_id new_credit_id now

-- ============================================================
-- Internal transfer endpoint (src/routers/internal.py)
-- ============================================================

/-- Payload of POST /internal/transfer (schemas.TransferRequest). -/
structure TransferRequest where
  requestId : String
  fromAccount : String
  toAccount : String
  amount : Int
  currency : String
  txId : Option String
deriving DecidableEq, Repr

/-- Response of POST /internal/transfer (schemas.TransferResponse); the
balances dict is flattened into its two keys. -/
structure TransferResponse where
  status : String
  debitEntryId : Option String
  creditEntryId : Option String
  balance_from : Int
  balance_to : Int
  message : Option String
deriving DecidableEq, Repr

/-- FastAPI HTTPException raised by the handlers. -/
structure HTTPError where
  status_code : Nat
  detail : String
deriving DecidableEq, Repr

/-- The try block of transfer_funds (src/routers/internal.py 106-189): the
handler re-implements the locked transaction inline, with the same lock
order, validations, entries and balance updates as apply_transfer_tx; the
currency of the payload is an already-uppercase enum value and is compared
verbatim. -/
def transfer_funds_tx (db : DB) (payload : TransferRequest)
    (new_debit_id new_credit_id : String) (now : Nat) :
    Except HTTPError (DB × TransferResponse) :=
  match findAccount db (ids_sorted payload.fromAccount payload.toAccount).1,
        findAccount db (ids_sorted payload.fromAccount payload.toAccount).2 with
  | some acc_a, some acc_b =>
    let from_acc := if acc_a.id == payload.fromAccount then acc_a else acc_b
    let to_acc := if acc_a.id == payload.fromAccount then acc_b else acc_a
    if from_acc.status != "ACTIVE" then
      .error ⟨422, "Origin account is not ACTIVE (status=" ++ from_acc.status ++ ")"⟩
    else if to_acc.status != "ACTIVE" then
      .error ⟨422, "Destination account is not ACTIVE (status=" ++ to_acc.status ++ ")"⟩
    else if from_acc.currency != to_acc.currency || from_acc.currency != payload.currency then
      .error ⟨422, "Currency mismatch (from=" ++ from_acc.currency ++ ", to=" ++ to_acc.currency
                ++ ", req=" ++ payload.currency ++ ")"⟩
    else if from_acc.balance < payload.amount then
      .error ⟨400, "Insufficient funds"⟩
    else
      let debit : LedgerEntry :=
        { id := new_debit_id, account_id := from_acc.id, tx_id := some payload.requestId
          direction := "DEBIT", amount := payload.amount, created_at := now }
      let credit : LedgerEntry :=
        { id := new_credit_id, account_id := to_acc.id, tx_id := some payload.requestId
          direction := "CREDIT", amount := payload.amount, created_at := now }
      let to_balance_read : Int :=
        if to_acc.id == from_acc.id then from_acc.balance - payload.amount else to_acc.balance
      let db1 := setBalance db from_acc.id (from_acc.balance - payload.amount)
      let db2 := setBalance db1 to_acc.id (to_balance_read + payload.amount)
      let db3 : DB := { db2 with ledger := db2.ledger ++ [debit, credit] }
      .ok (db3, { status := "OK"
                  debitEntryId := some debit.id
                  creditEntryId := some credit.id
                  balance_from := balanceOf db3 from_acc.id
                  balance_to := balanceOf db3 to_acc.id
                  message := some "Transfer applied" })
  | _, _ => .error ⟨404, "Account not found"⟩

/-- transfer_funds (src/routers/internal.py 45-199): amount guard, then the
any-direction idempotency lookup - if any row carries this requestId as
tx_id the handler answers with the replay response (fetching each leg
separately, either of which may be absent) without mutating anything - else
the locked transaction. -/
def transfer_funds (db : DB) (payload : TransferRequest)
    (new_debit_id new_credit_id : String) (now : Nat) :
    Except HTTPError (DB × TransferResponse) :=
  if payload.amount ≤ 0 then .error ⟨422, "Amount must be > 0"⟩
  else
    match db.ledger.find? (entryFor payload.requestId) with
    | some _ =>
        let debit := db.ledger.find? (debitFor payload.requestId)
        let credit := db.ledger.find? (creditFor payload.requestId)
        .ok (db, { status := "OK"
                   debitEntryId := debit.map LedgerEntry.id
                   creditEntryId := credit.map LedgerEntry.id
                   balance_from := balanceOf db payload.fromAccount
                   balance_to := balanceOf db payload.toAccount
                   message := some "Idempotent replay" })
    | none =>
        transfer_funds_tx db payload new_debit_id new_credit_id now

-- ============================================================
-- Reachable database states
-- ============================================================

/-- The states reachable from the empty database through the write
operations of the service: account creation, status update, manual ledger
append, and the two transfer entry points (src/cruds.py and the
/internal/transfer handler).  Read-only endpoints do not change state, and
every failing operation leaves the state unchanged (the code raises before
commit and rolls back on storage errors). -/
inductive Reachable : DB → Prop where
  | init : Reachable ⟨[], []⟩
  | create (db : DB) (cid ty cur nid : String) (t : Nat) :
      Reachable db → Reachable (create_account db cid ty cur nid t).1
  | set_status (db db2 : DB) (aid st : String) (now : Nat) (acc : Account) :
      Reachable db → update_account_status db aid st now = some (db2, acc) →
      Reachable db2
  | append_entry (db : DB) (aid dir : String) (amt : Int) (tx : Option String)
      (nid : String) (t : Nat) :
      Reachable db → Reachable (create_ledger_entry db aid dir amt tx nid t).1
  | transfer_crud (db db2 : DB) (rid f t : String) (amt : Int)
      (cur ndid ncid : String) (now : Nat) (d c : LedgerEntry) (nf nt : Int) :
      Reachable db →
      apply_transfer_atomic db rid f t amt cur ndid ncid now = .ok (db2, d, c, nf, nt) →
      Reachable db2
  | transfer_http (db db2 : DB) (p : TransferRequest) (ndid ncid : String)
      (now : Nat) (resp : TransferResponse) :
      Reachable db → transfer_funds db p ndid ncid now = .ok (db2, resp) →
      Reachable db2

-- ============================================================
-- Helper lemmas: strings
-- ============================================================

/-- Characters with equal code points are equal. -/
theorem charNat_inj {c d : Char} (h : c.toNat = d.toNat) : c = d :=
  Char.ext (UInt32.ext (by simpa [Char.toNat] using h))

/-- Reflexivity of the lexicographic comparison. -/
theorem strLeAux_refl : ∀ (l : List Char), strLeAux l l = true
  | [] => rfl
  | c :: cs => by simp [strLeAux, strLeAux_refl cs]

/-- Antisymmetry of the lexicographic comparison. -/
theorem strLeAux_antisymm : ∀ {l m : List Char},
    strLeAux l m = true → strLeAux m l = true → l = m
  | [], [], _, _ => rfl
  | [], _ :: _, _, h2 => by simp [strLeAux] at h2
  | _ :: _, [], h1, _ => by simp [strLeAux] at h1
  | c :: cs, d :: ds, h1, h2 => by
    by_cases hcd : c.toNat < d.toNat
    · have hdc : ¬ d.toNat < c.toNat := by omega
      simp [strLeAux, hcd, hdc] at h2
    · by_cases hdc : d.toNat < c.toNat
      · simp [strLeAux, hcd, hdc] at h1
      · have hc : c = d := charNat_inj (by omega)
        subst hc
        have h1' : strLeAux cs ds = true := by simpa [strLeAux, hcd, hdc] using h1
        have h2' : strLeAux ds cs = true := by simpa [strLeAux, hcd, hdc] using h2
        rw [strLeAux_antisymm h1' h2']

/-- Totality of the lexicographic comparison. -/
theorem strLeAux_total : ∀ {l m : List Char}, strLeAux l m = false → strLeAux m l = true
  | [], _, h => by simp [strLeAux] at h
  | _ :: _, [], _ => rfl
  | c :: cs, d :: ds, h => by
    by_cases hcd : c.toNat < d.toNat
    · simp [strLeAux, hcd] at h
    · by_cases hdc : d.toNat < c.toNat
      · simp [strLeAux, hdc]
      · have h' : strLeAux cs ds = false := by simpa [strLeAux, hcd, hdc] using h
        simpa [strLeAux, hcd, hdc] using strLeAux_total h'

/-- pyLe is reflexive. -/
theorem pyLe_refl (a : String) : pyLe a a = true := strLeAux_refl _

/-- pyLe is total. -/
theorem pyLe_total {a b : String} (h : pyLe a b = false) : pyLe b a = true :=
  strLeAux_total h

/-- pyLe is antisymmetric. -/
theorem pyLe_antisymm {a b : String} (h1 : pyLe a b = true) (h2 : pyLe b a = true) :
    a = b := by
  cases a; cases b; exact congrArg String.mk (strLeAux_antisymm h1 h2)

-- ============================================================
-- Helper lemmas: account lookup and balance updates
-- ============================================================

/-- The account a lookup returns carries the looked-up id. -/
theorem findAccount_id {db : DB} {x : String} {a : Account}
    (h : findAccount db x = some a) : a.id = x := by
  unfold findAccount at h
  simpa [beq_iff_eq] using List.find?_some h

/-- The account a lookup returns is a row of the table. -/
theorem findAccount_mem {db : DB} {x : String} {a : Account}
    (h : findAccount db x = some a) : a ∈ db.accounts := by
  unfold findAccount at h
  exact List.mem_of_find?_eq_some h

/-- find? by id commutes with mapping an id-preserving row transformation. -/
theorem find?_id_map (f : Account → Account) (hf : ∀ a, (f a).id = a.id) :
    ∀ (l : List Account) (x : String),
      (l.map f).find? (fun a => a.id == x) = (l.find? (fun a => a.id == x)).map f
  | [], _ => rfl
  | a :: l, x => by
    by_cases h : a.id = x
    · rw [List.map_cons, List.find?_cons_of_pos _ (by simp [hf, h]),
          List.find?_cons_of_pos _ (by simp [h])]
      rfl
    · rw [List.map_cons, List.find?_cons_of_neg _ (by simp [hf, h]),
          List.find?_cons_of_neg _ (by simp [h]), find?_id_map f hf l x]

/-- Lookup after a balance write. -/
theorem findAccount_setBalance (db : DB) (aid x : String) (v : Int) :
    findAccount (setBalance db aid v) x =
      (findAccount db x).map
        (fun a => if a.id == aid then { a with balance := v } else a) := by
  unfold findAccount setBalance
  exact find?_id_map _ (fun a => by by_cases h : a.id = aid <;> simp [h]) db.accounts x

/-- Lookup of the written row after a balance write. -/
theorem findAccount_setBalance_self {db : DB} {x : String} {a : Account} (v : Int)
    (h : findAccount db x = some a) :
    findAccount (setBalance db x v) x = some { a with balance := v } := by
  rw [findAccount_setBalance, h]
  simp [findAccount_id h]

/-- Lookup of a different row after a balance write. -/
theorem findAccount_setBalance_ne {db : DB} {aid x : String} (v : Int) (h : x ≠ aid) :
    findAccount (setBalance db aid v) x = findAccount db x := by
  rw [findAccount_setBalance]
  cases hfa : findAccount db x with
  | none => rfl
  | some a => simp [findAccount_id hfa, h]

/-- Reading the balance of a row that exists. -/
theorem balanceOf_eq {db : DB} {x : String} {a : Account}
    (h : findAccount db x = some a) : balanceOf db x = a.balance := by
  unfold balanceOf; rw [h]; rfl

/-- Account lookup does not read the ledger. -/
theorem findAccount_ledger (db : DB) (L : List LedgerEntry) (x : String) :
    findAccount { db with ledger := L } x = findAccount db x := rfl

-- ============================================================
-- Helper lemmas: the locked transfer transaction
-- ============================================================

/-- When both rows exist, the sorted-order lock returns them in semantic
(from, to) order, whatever the lock order was. -/
theorem lock_accounts_eq {db : DB} {fid tid : String} {fa ta : Account}
    (hfa : findAccount db fid = some fa) (hta : findAccount db tid = some ta) :
    lock_accounts_for_update db fid tid = .ok (fa, ta) := by
  have hfid := findAccount_id hfa
  have htid := findAccount_id hta
  by_cases hle : pyLe fid tid = true
  · simp only [lock_accounts_for_update, ids_sorted, hle, if_true, hfa, hta, hfid,
      beq_self_eq_true]
  · have hle' : pyLe fid tid = false := by
      cases h : pyLe fid tid with
      | true => exact absurd h hle
      | false => rfl
    by_cases heq : tid = fid
    · exact absurd (heq ▸ pyLe_refl fid) (heq ▸ hle)
    · simp only [lock_accounts_for_update, ids_sorted, hle', Bool.false_eq_true,
        if_false, hta, hfa, htid, beq_iff_eq, heq, if_neg]

/-- Both locked rows come from the accounts table. -/
theorem lock_accounts_mem {db : DB} {a b : String} {x y : Account}
    (h : lock_accounts_for_update db a b = .ok (x, y)) :
    x ∈ db.accounts ∧ y ∈ db.accounts := by
  unfold lock_accounts_for_update at h
  cases hfa : findAccount db (ids_sorted a b).1 with
  | none => rw [hfa] at h; cases hfb : findAccount db (ids_sorted a b).2 <;>
      rw [hfb] at h <;> simp at h
  | some accA =>
    cases hfb : findAccount db (ids_sorted a b).2 with
    | none => rw [hfa, hfb] at h; simp at h
    | some accB =>
      rw [hfa, hfb] at h
      have hma := findAccount_mem hfa
      have hmb := findAccount_mem hfb
      by_cases hid : (accA.id == a) = true
      · simp only [hid, if_true, Except.ok.injEq, Prod.mk.injEq] at h
        obtain ⟨rfl, rfl⟩ := h
        exact ⟨hma, hmb⟩
      · simp only [hid, if_false, Except.ok.injEq, Prod.mk.injEq] at h
        obtain ⟨rfl, rfl⟩ := h
        exact ⟨hmb, hma⟩


/-- Reading the balance of the row just written. -/
theorem balanceOf_setBalance_self {db : DB} {x : String} {a : Account} (v : Int)
    (h : findAccount db x = some a) : balanceOf (setBalance db x v) x = v := by
  unfold balanceOf
  rw [findAccount_setBalance_self v h]
  rfl

/-- Reading the balance of a row other than the one written. -/
theorem balanceOf_setBalance_ne {db : DB} {aid x : String} (v : Int) (h : x ≠ aid) :
    balanceOf (setBalance db aid v) x = balanceOf db x := by
  unfold balanceOf
  rw [findAccount_setBalance_ne v h]

/-- Reading a balance does not depend on the ledger. -/
theorem balanceOf_ledger (db : DB) (L : List LedgerEntry) (x : String) :
    balanceOf { db with ledger := L } x = balanceOf db x := rfl

/-- Full characterisation of a fresh (non-replay) locked transfer that passes
every validation: the committed state, the two inserted entries, and the
refreshed balances - including the identity-map aliasing when the two
account ids coincide. -/
theorem apply_transfer_tx_spec {db : DB} {fid tid : String} {fa ta : Account}
    (rid : String) (amount : Int) (cur ndid ncid : String) (now : Nat)
    (hfa : findAccount db fid = some fa) (hta : findAccount db tid = some ta)
    (hfas : fa.status = "ACTIVE") (htas : ta.status = "ACTIVE")
    (hcur1 : fa.currency = ta.currency) (hcur2 : fa.currency = pyToUpper cur)
    (hfunds : ¬ fa.balance < amount) :
    ∃ db3,
      apply_transfer_tx db rid fid tid amount cur ndid ncid now =
        .ok (db3,
          { id := ndid, account_id := fid, tx_id := some rid,
            direction := "DEBIT", amount := amount, created_at := now },
          { id := ncid, account_id := tid, tx_id := some rid,
            direction := "CREDIT", amount := amount, created_at := now },
          balanceOf db3 fid, balanceOf db3 tid) ∧
      db3.ledger = db.ledger ++
        [ { id := ndid, account_id := fid, tx_id := some rid,
            direction := "DEBIT", amount := amount, created_at := now },
          { id := ncid, account_id := tid, tx_id := some rid,
            direction := "CREDIT", amount := amount, created_at := now } ] ∧
      balanceOf db3 fid = (if fid = tid then fa.balance else fa.balance - amount) ∧
      balanceOf db3 tid = (if fid = tid then fa.balance else ta.balance + amount) ∧
      (findAccount db3 fid).map Account.currency = some fa.currency ∧
      (findAccount db3 tid).map Account.currency = some ta.currency := by
  have hfid := findAccount_id hfa
  have htid := findAccount_id hta
  have hcur2' : ta.currency = pyToUpper cur := hcur1 ▸ hcur2
  unfold apply_transfer_tx
  rw [lock_accounts_eq hfa hta]
  simp only [hfas, htas, hcur1, hcur2', bne_self_eq_false, Bool.false_or,
    Bool.or_self, Bool.false_eq_true, if_false, hfunds, hfid, htid]
  by_cases hft : fid = tid
  · subst hft
    have hfata : fa = ta := by rw [hfa] at hta; exact Option.some.inj hta
    subst hfata
    refine ⟨_, rfl, rfl, ?_, ?_, ?_, ?_⟩
    · rw [if_pos rfl, balanceOf_ledger,
        balanceOf_setBalance_self _ (findAccount_setBalance_self _ hfa)]
      simp
    · rw [if_pos rfl, balanceOf_ledger,
        balanceOf_setBalance_self _ (findAccount_setBalance_self _ hfa)]
      simp
    · rw [findAccount_ledger,
        findAccount_setBalance_self _ (findAccount_setBalance_self _ hfa)]
      simp [hcur2]
    · rw [findAccount_ledger,
        findAccount_setBalance_self _ (findAccount_setBalance_self _ hfa)]
      simp [hcur2]
  · have htf : tid ≠ fid := fun h => hft h.symm
    have hbeq : (tid == fid) = false := by simp [htf]
    rw [hbeq]
    have h1 : findAccount (setBalance db fid (fa.balance - amount)) tid = some ta :=
      (findAccount_setBalance_ne _ htf).trans hta
    refine ⟨_, rfl, rfl, ?_, ?_, ?_, ?_⟩
    · rw [if_neg hft, balanceOf_ledger, balanceOf_setBalance_ne _ hft,
        balanceOf_setBalance_self _ hfa]
    · rw [if_neg hft, balanceOf_ledger, balanceOf_setBalance_self _ h1]
      simp
    · rw [findAccount_ledger, findAccount_setBalance_ne _ hft,
        findAccount_setBalance_self _ hfa]
      simp [hcur2]
    · rw [findAccount_ledger, findAccount_setBalance_self _ h1]
      simp [hcur2']

/-- A locked transfer whose balance is short of the amount is rejected with
the insufficient-funds error. -/
theorem apply_transfer_tx_insufficient {db : DB} {fid tid : String} {fa ta : Account}
    (rid : String) (amount : Int) (cur ndid ncid : String) (now : Nat)
    (hfa : findAccount db fid = some fa) (hta : findAccount db tid = some ta)
    (hfas : fa.status = "ACTIVE") (htas : ta.status = "ACTIVE")
    (hcur1 : fa.currency = ta.currency) (hcur2 : fa.currency = pyToUpper cur)
    (hfunds : fa.balance < amount) :
    apply_transfer_tx db rid fid tid amount cur ndid ncid now =
      .error ⟨"Insufficient funds", 400⟩ := by
  have hcur2' : ta.currency = pyToUpper cur := hcur1 ▸ hcur2
  unfold apply_transfer_tx
  rw [lock_accounts_eq hfa hta]
  simp only [hfas, htas, hcur1, hcur2', bne_self_eq_false, Bool.false_or,
    Bool.or_self, Bool.false_eq_true, if_false, hfunds, if_true]

/-- A locked transfer whose currencies do not all match is rejected
(whatever the account statuses are). -/
theorem apply_transfer_tx_currency_reject {db : DB} {fid tid : String} {fa ta : Account}
    (rid : String) (amount : Int) (cur ndid ncid : String) (now : Nat)
    (hfa : findAccount db fid = some fa) (hta : findAccount db tid = some ta)
    (hmis : ¬ (fa.currency = ta.currency ∧ fa.currency = pyToUpper cur)) :
    ∃ e, apply_transfer_tx db rid fid tid amount cur ndid ncid now = .error e := by
  unfold apply_transfer_tx
  rw [lock_accounts_eq hfa hta]
  dsimp only
  by_cases h1 : (fa.status != "ACTIVE") = true
  · exact ⟨_, by rw [if_pos h1]⟩
  · rw [if_neg h1]
    by_cases h2 : (ta.status != "ACTIVE") = true
    · exact ⟨_, by rw [if_pos h2]⟩
    · rw [if_neg h2]
      have hcond : (fa.currency != ta.currency || fa.currency != pyToUpper cur) = true := by
        rcases not_and_or.mp hmis with h | h <;> simp [bne_iff_ne, h]
      exact ⟨_, by rw [if_pos hcond]⟩

/-- A locked transfer with a non-ACTIVE party is rejected. -/
theorem apply_transfer_tx_status_reject {db : DB} {fid tid : String} {fa ta : Account}
    (rid : String) (amount : Int) (cur ndid ncid : String) (now : Nat)
    (hfa : findAccount db fid = some fa) (hta : findAccount db tid = some ta)
    (hbad : ¬ (fa.status = "ACTIVE" ∧ ta.status = "ACTIVE")) :
    ∃ e, apply_transfer_tx db rid fid tid amount cur ndid ncid now = .error e ∧
      e.http_status = 422 := by
  unfold apply_transfer_tx
  rw [lock_accounts_eq hfa hta]
  dsimp only
  by_cases h1 : (fa.status != "ACTIVE") = true
  · exact ⟨_, by rw [if_pos h1], rfl⟩
  · rw [if_neg h1]
    have hfas : fa.status = "ACTIVE" := by simpa [bne_iff_ne] using h1
    have h2 : (ta.status != "ACTIVE") = true := by
      rcases not_and_or.mp hbad with h | h
      · exact absurd hfas h
      · simpa [bne_iff_ne] using h
    exact ⟨_, by rw [if_pos h2], rfl⟩

/-- When both legs already exist for the request id, apply_transfer_atomic
answers from the existing entries and current balances, without mutating. -/
theorem apply_replay {db : DB} {rid : String} {ed ec : LedgerEntry}
    (fid tid : String) {amount : Int} (cur ndid ncid : String) (now : Nat)
    (hamt : ¬ amount ≤ 0)
    (hd : db.ledger.find? (debitFor rid) = some ed)
    (hc : db.ledger.find? (creditFor rid) = some ec) :
    apply_transfer_atomic db rid fid tid amount cur ndid ncid now =
      .ok (db, ed, ec, balanceOf db fid, balanceOf db tid) := by
  unfold apply_transfer_atomic
  rw [if_neg hamt, hd, hc]

/-- When at least one leg is missing, apply_transfer_atomic runs the locked
transaction. -/
theorem apply_nonreplay_route {db : DB} {rid : String} (fid tid : String)
    {amount : Int} (cur ndid ncid : String) (now : Nat) (hamt : ¬ amount ≤ 0)
    (h : db.ledger.find? (debitFor rid) = none ∨ db.ledger.find? (creditFor rid) = none) :
    apply_transfer_atomic db rid fid tid amount cur ndid ncid now =
      apply_transfer_tx db rid fid tid amount cur ndid ncid now := by
  unfold apply_transfer_atomic
  rw [if_neg hamt]
  rcases h with h | h
  · rw [h]
  · rw [h]
    cases db.ledger.find? (debitFor rid) <;> rfl

/-- When any row carries the request id, the transfer handler replays. -/
theorem transfer_funds_replay {db : DB} {p : TransferRequest} {e : LedgerEntry}
    (ndid ncid : String) (now : Nat) (hamt : ¬ p.amount ≤ 0)
    (he : db.ledger.find? (entryFor p.requestId) = some e) :
    transfer_funds db p ndid ncid now =
      .ok (db, { status := "OK"
                 debitEntryId := (db.ledger.find? (debitFor p.requestId)).map LedgerEntry.id
                 creditEntryId := (db.ledger.find? (creditFor p.requestId)).map LedgerEntry.id
                 balance_from := balanceOf db p.fromAccount
                 balance_to := balanceOf db p.toAccount
                 message := some "Idempotent replay" }) := by
  unfold transfer_funds
  rw [if_neg hamt, he]

/-- When no row carries the request id, the transfer handler runs the locked
transaction. -/
theorem transfer_funds_fresh_route {db : DB} {p : TransferRequest}
    (ndid ncid : String) (now : Nat) (hamt : ¬ p.amount ≤ 0)
    (he : db.ledger.find? (entryFor p.requestId) = none) :
    transfer_funds db p ndid ncid now = transfer_funds_tx db p ndid ncid now := by
  unfold transfer_funds
  rw [if_neg hamt, he]

/-- A committed locked transfer appends exactly its two entries. -/
theorem apply_transfer_tx_ledger {db db2 : DB} {rid fid tid : String} {amount : Int}
    {cur ndid ncid : String} {now : Nat} {d c : LedgerEntry} {nf nt : Int}
    (h : apply_transfer_tx db rid fid tid amount cur ndid ncid now = .ok (db2, d, c, nf, nt)) :
    db2.ledger = db.ledger ++ [d, c] := by
  unfold apply_transfer_tx at h
  split at h
  · exact Except.noConfusion h
  · split at h
    · exact Except.noConfusion h
    · split at h
      · exact Except.noConfusion h
      · split at h
        · exact Except.noConfusion h
        · split at h
          · exact Except.noConfusion h
          · simp only [Except.ok.injEq, Prod.mk.injEq] at h
            obtain ⟨rfl, rfl, rfl, -, -⟩ := h
            rfl

/-- Every success of the inline locked transaction of the handler carries the
fresh-transfer message. -/
theorem transfer_funds_tx_message {db db2 : DB} {p : TransferRequest}
    {ndid ncid : String} {now : Nat} {resp : TransferResponse}
    (h : transfer_funds_tx db p ndid ncid now = .ok (db2, resp)) :
    resp.message = some "Transfer applied" := by
  unfold transfer_funds_tx at h
  cases hfa : findAccount db (ids_sorted p.fromAccount p.toAccount).1 <;> rw [hfa] at h
  case none =>
    cases hfb : findAccount db (ids_sorted p.fromAccount p.toAccount).2 <;>
      rw [hfb] at h <;> exact Except.noConfusion h
  case some acc_a =>
    cases hfb : findAccount db (ids_sorted p.fromAccount p.toAccount).2 <;> rw [hfb] at h
    case none => exact Except.noConfusion h
    case some acc_b =>
      dsimp only at h
      repeat' split at h
      all_goals try exact Except.noConfusion h
      all_goals simp only [Except.ok.injEq, Prod.mk.injEq] at h
      all_goals obtain ⟨-, rfl⟩ := h
      all_goals rfl

/-- The committed double balance update keeps every balance non-negative:
the debited row stays at from.balance - amount >= 0 by the funds check, the
credited row gains a positive amount, and a self-transfer nets to the old
balance. -/
theorem setBalance2_nonneg {db : DB} {F T : Account} (amount : Int)
    (hmf : F ∈ db.accounts) (hmt : T ∈ db.accounts)
    (hamt : ¬ amount ≤ 0) (hfunds : ¬ F.balance < amount)
    (hinv : ∀ a ∈ db.accounts, 0 ≤ a.balance) :
    ∀ a ∈ (setBalance (setBalance db F.id (F.balance - amount)) T.id
        ((if (T.id == F.id) = true then F.balance - amount else T.balance) + amount)).accounts,
      0 ≤ a.balance := by
  intro a ha
  simp only [setBalance, List.mem_map] at ha
  obtain ⟨x, ⟨y, hy, rfl⟩, rfl⟩ := ha
  have h0f : 0 ≤ F.balance := hinv _ hmf
  have h0t : 0 ≤ T.balance := hinv _ hmt
  have h0y : 0 ≤ y.balance := hinv _ hy
  repeat' split
  all_goals try dsimp only
  all_goals omega

/-- A successful locked transfer preserves non-negativity of all balances. -/
theorem apply_transfer_tx_nonneg {db db2 : DB} {rid fid tid : String} {amount : Int}
    {cur ndid ncid : String} {now : Nat} {d c : LedgerEntry} {nf nt : Int}
    (hamt : ¬ amount ≤ 0)
    (h : apply_transfer_tx db rid fid tid amount cur ndid ncid now = .ok (db2, d, c, nf, nt))
    (hinv : ∀ a ∈ db.accounts, 0 ≤ a.balance) :
    ∀ a ∈ db2.accounts, 0 ≤ a.balance := by
  unfold apply_transfer_tx at h
  split at h
  · exact Except.noConfusion h
  next from_acc to_acc hlock =>
    split at h
    · exact Except.noConfusion h
    · split at h
      · exact Except.noConfusion h
      · split at h
        · exact Except.noConfusion h
        · split at h
          · exact Except.noConfusion h
          next hfunds =>
            obtain ⟨hmf, hmt⟩ := lock_accounts_mem hlock
            simp only [Except.ok.injEq, Prod.mk.injEq] at h
            obtain ⟨rfl, -, -, -, -⟩ := h
            exact setBalance2_nonneg amount hmf hmt hamt hfunds hinv

/-- A successful inline locked transfer of the handler preserves
non-negativity of all balances. -/
theorem transfer_funds_tx_nonneg {db db2 : DB} {p : TransferRequest}
    {ndid ncid : String} {now : Nat} {resp : TransferResponse}
    (hamt : ¬ p.amount ≤ 0)
    (h : transfer_funds_tx db p ndid ncid now = .ok (db2, resp))
    (hinv : ∀ a ∈ db.accounts, 0 ≤ a.balance) :
    ∀ a ∈ db2.accounts, 0 ≤ a.balance := by
  unfold transfer_funds_tx at h
  cases hfa : findAccount db (ids_sorted p.fromAccount p.toAccount).1 <;> rw [hfa] at h
  case none =>
    cases hfb : findAccount db (ids_sorted p.fromAccount p.toAccount).2 <;>
      rw [hfb] at h <;> exact Except.noConfusion h
  case some acc_a =>
    cases hfb : findAccount db (ids_sorted p.fromAccount p.toAccount).2 <;> rw [hfb] at h
    case none => exact Except.noConfusion h
    case some acc_b =>
      have hma := findAccount_mem hfa
      have hmb := findAccount_mem hfb
      dsimp only at h
      by_cases hsel : (acc_a.id == p.fromAccount) = true
      all_goals simp only [hsel, if_true, if_false, Bool.false_eq_true] at h
      all_goals split at h
      all_goals try exact Except.noConfusion h
      all_goals split at h
      all_goals try exact Except.noConfusion h
      all_goals split at h
      all_goals try exact Except.noConfusion h
      all_goals split at h
      all_goals try exact Except.noConfusion h
      all_goals rename_i hfunds
      all_goals simp only [Except.ok.injEq, Prod.mk.injEq] at h
      all_goals obtain ⟨rfl, -⟩ := h
      all_goals first
        | exact setBalance2_nonneg p.amount hma hmb hamt hfunds hinv
        | exact setBalance2_nonneg p.amount hmb hma hamt hfunds hinv

/-- A successful apply_transfer_atomic preserves non-negativity. -/
theorem apply_transfer_atomic_nonneg {db db2 : DB} {rid fid tid : String} {amount : Int}
    {cur ndid ncid : String} {now : Nat} {d c : LedgerEntry} {nf nt : Int}
    (h : apply_transfer_atomic db rid fid tid amount cur ndid ncid now = .ok (db2, d, c, nf, nt))
    (hinv : ∀ a ∈ db.accounts, 0 ≤ a.balance) :
    ∀ a ∈ db2.accounts, 0 ≤ a.balance := by
  unfold apply_transfer_atomic at h
  split at h
  · exact Except.noConfusion h
  next hamt =>
    split at h
    · simp only [Except.ok.injEq, Prod.mk.injEq] at h
      obtain ⟨rfl, -⟩ := h
      exact hinv
    · exact apply_transfer_tx_nonneg hamt h hinv

/-- A successful transfer_funds preserves non-negativity. -/
theorem transfer_funds_nonneg {db db2 : DB} {p : TransferRequest}
    {ndid ncid : String} {now : Nat} {resp : TransferResponse}
    (h : transfer_funds db p ndid ncid now = .ok (db2, resp))
    (hinv : ∀ a ∈ db.accounts, 0 ≤ a.balance) :
    ∀ a ∈ db2.accounts, 0 ≤ a.balance := by
  unfold transfer_funds at h
  split at h
  · exact Except.noConfusion h
  next hamt =>
    split at h
    · simp only [Except.ok.injEq, Prod.mk.injEq] at h
      obtain ⟨rfl, -⟩ := h
      exact hinv
    · exact transfer_funds_tx_nonneg hamt h hinv

/-- Account creation preserves non-negativity: the new account starts at 0. -/
theorem create_account_nonneg {db : DB} {cid ty cur nid : String} {t : Nat}
    (hinv : ∀ a ∈ db.accounts, 0 ≤ a.balance) :
    ∀ a ∈ (create_account db cid ty cur nid t).1.accounts, 0 ≤ a.balance := by
  intro a ha
  simp only [create_account, List.mem_append, List.mem_singleton] at ha
  rcases ha with h | rfl
  · exact hinv _ h
  · simp

/-- A status update never touches a balance. -/
theorem update_account_status_nonneg {db db2 : DB} {aid st : String} {now : Nat}
    {acc : Account} (h : update_account_status db aid st now = some (db2, acc))
    (hinv : ∀ a ∈ db.accounts, 0 ≤ a.balance) :
    ∀ a ∈ db2.accounts, 0 ≤ a.balance := by
  unfold update_account_status at h
  cases hfa : findAccount db aid <;> rw [hfa] at h
  · exact Option.noConfusion h
  next acc0 =>
    simp only [Option.some.injEq, Prod.mk.injEq] at h
    obtain ⟨rfl, -⟩ := h
    intro a ha
    simp only [storeAccount, List.mem_map] at ha
    obtain ⟨y, hy, rfl⟩ := ha
    have h0 : 0 ≤ acc0.balance := hinv _ (findAccount_mem hfa)
    have h0y : 0 ≤ y.balance := hinv _ hy
    repeat' split
    all_goals first | exact h0y | simpa using h0

/-- C3: every state reachable through the write operations of the service
keeps every account balance non-negative - account creation starts at 0,
status updates and ledger appends do not touch balances, and both transfer
entry points either reject without mutating or commit a funds-checked
double update. -/
theorem C3_balance_invariant {db : DB} (h : Reachable db) :
    ∀ a ∈ db.accounts, 0 ≤ a.balance := by
  induction h with
  | init => intro a ha; simp at ha
  | create db cid ty cur nid t hr ih => exact create_account_nonneg ih
  | set_status db db2 aid st now acc hr hu ih =>
      exact update_account_status_nonneg hu ih
  | append_entry db aid dir amt tx nid t hr ih => exact ih
  | transfer_crud db db2 rid f t amt cur ndid ncid now d c nf nt hr happly ih =>
      exact apply_transfer_atomic_nonneg happly ih
  | transfer_http db db2 p ndid ncid now resp hr htf ih =>
      exact transfer_funds_nonneg htf ih

/-- Witness for C3 at a concrete reachable state with one account. -/
theorem C3_balance_invariant_witness :
    Reachable (create_account ⟨[], []⟩ "c1" "SAVINGS" "PEN" "a1" 0).1 ∧
      ∀ a ∈ (create_account ⟨[], []⟩ "c1" "SAVINGS" "PEN" "a1" 0).1.accounts,
        0 ≤ a.balance :=
  ⟨Reachable.create _ _ _ _ _ _ Reachable.init,
   C3_balance_invariant (Reachable.create _ _ _ _ _ _ Reachable.init)⟩

-- ============================================================
-- Claims
-- ============================================================

/-- A fresh request id makes both idempotency lookups miss. -/
theorem find?_debitFor_none {db : DB} {rid : String}
    (hfresh : ∀ e ∈ db.ledger, e.tx_id ≠ some rid) :
    db.ledger.find? (debitFor rid) = none :=
  List.find?_eq_none.mpr (fun e he => by simp [debitFor, hfresh e he])

/-- A fresh request id makes the CREDIT idempotency lookup miss. -/
theorem find?_creditFor_none {db : DB} {rid : String}
    (hfresh : ∀ e ∈ db.ledger, e.tx_id ≠ some rid) :
    db.ledger.find? (creditFor rid) = none :=
  List.find?_eq_none.mpr (fun e he => by simp [creditFor, hfresh e he])

/-- C1 counterexample: a first-time transfer whose source and destination are
the same account (the code accepts it) completes successfully, yet the
returned and stored new source balance is the unchanged old balance 10, not
old - amount = 7: the identity-mapped row is debited and then credited back. -/
theorem C1_counterexample :
    (apply_transfer_atomic
        ⟨[⟨"a", "c", "SAVINGS", "ACTIVE", "USD", 0, none, 10⟩], []⟩
        "r1" "a" "a" 3 "USD" "d1" "c1" 7).toOption.map
      (fun r => (r.2.2.2.1, r.2.2.2.2, balanceOf r.1 "a", r.1.ledger.length)) =
      some (10, 10, 10, 2) ∧ ¬ ((10 : Int) = 10 - 3) := by
  decide

/-- C1 (amended with distinct accounts): a first-time successful transfer
between two distinct accounts debits the source by amount, credits the
destination by amount, and leaves exactly one DEBIT entry (on the source)
and exactly one CREDIT entry (on the destination) with tx_id = requestId
and that amount. -/
theorem C1_first_success_balances_and_entries
    {db : DB} {fid tid : String} {fa ta : Account}
    (rid : String) (amount : Int) (cur ndid ncid : String) (now : Nat)
    (hne : fid ≠ tid)
    (hfresh : ∀ e ∈ db.ledger, e.tx_id ≠ some rid)
    (hamt : 0 < amount)
    (hfa : findAccount db fid = some fa) (hta : findAccount db tid = some ta)
    (hfas : fa.status = "ACTIVE") (htas : ta.status = "ACTIVE")
    (hcur1 : fa.currency = ta.currency) (hcur2 : fa.currency = pyToUpper cur)
    (hfunds : amount ≤ fa.balance) :
    ∃ db2,
      apply_transfer_atomic db rid fid tid amount cur ndid ncid now =
        .ok (db2,
          ⟨ndid, fid, some rid, "DEBIT", amount, now⟩,
          ⟨ncid, tid, some rid, "CREDIT", amount, now⟩,
          fa.balance - amount, ta.balance + amount) ∧
      db2.ledger.filter (debitFor rid) = [⟨ndid, fid, some rid, "DEBIT", amount, now⟩] ∧
      db2.ledger.filter (creditFor rid) = [⟨ncid, tid, some rid, "CREDIT", amount, now⟩] := by
  have hamt' : ¬ amount ≤ 0 := by omega
  have hfunds' : ¬ fa.balance < amount := by omega
  rw [apply_nonreplay_route fid tid cur ndid ncid now hamt'
    (Or.inl (find?_debitFor_none hfresh))]
  obtain ⟨db2, heq, hledger, hbf, hbt, -, -⟩ :=
    apply_transfer_tx_spec rid amount cur ndid ncid now hfa hta hfas htas hcur1 hcur2 hfunds'
  have hnilD : db.ledger.filter (debitFor rid) = [] :=
    List.filter_eq_nil_iff.mpr (fun e he => by simp [debitFor, hfresh e he])
  have hnilC : db.ledger.filter (creditFor rid) = [] :=
    List.filter_eq_nil_iff.mpr (fun e he => by simp [creditFor, hfresh e he])
  refine ⟨db2, ?_, ?_, ?_⟩
  · rw [heq, hbf, hbt, if_neg hne, if_neg hne]
  · rw [hledger, List.filter_append, hnilD]
    simp [debitFor]
  · rw [hledger, List.filter_append, hnilC]
    simp [creditFor]

/-- Witness for C1 at the specification scenario: A(1000 PEN) pays 150 to
B(500 PEN) under request id r1. -/
theorem C1_first_success_witness :
    (("a" : String) ≠ "b" ∧
      (∀ e ∈ (⟨[⟨"a", "cA", "SAVINGS", "ACTIVE", "PEN", 0, none, 1000⟩,
                 ⟨"b", "cB", "SAVINGS", "ACTIVE", "PEN", 0, none, 500⟩], []⟩ : DB).ledger,
        e.tx_id ≠ some "r1") ∧
      (0 : Int) < 150 ∧ (150 : Int) ≤ 1000) ∧
    ∃ db2,
      apply_transfer_atomic
          ⟨[⟨"a", "cA", "SAVINGS", "ACTIVE", "PEN", 0, none, 1000⟩,
            ⟨"b", "cB", "SAVINGS", "ACTIVE", "PEN", 0, none, 500⟩], []⟩
          "r1" "a" "b" 150 "PEN" "d1" "c1" 5 =
        .ok (db2,
          ⟨"d1", "a", some "r1", "DEBIT", 150, 5⟩,
          ⟨"c1", "b", some "r1", "CREDIT", 150, 5⟩,
          1000 - 150, 500 + 150) ∧
      db2.ledger.filter (debitFor "r1") = [⟨"d1", "a", some "r1", "DEBIT", 150, 5⟩] ∧
      db2.ledger.filter (creditFor "r1") = [⟨"c1", "b", some "r1", "CREDIT", 150, 5⟩] :=
  ⟨⟨by decide, by decide, by decide, by decide⟩,
   @C1_first_success_balances_and_entries
     ⟨[⟨"a", "cA", "SAVINGS", "ACTIVE", "PEN", 0, none, 1000⟩,
       ⟨"b", "cB", "SAVINGS", "ACTIVE", "PEN", 0, none, 500⟩], []⟩
     "a" "b"
     ⟨"a", "cA", "SAVINGS", "ACTIVE", "PEN", 0, none, 1000⟩
     ⟨"b", "cB", "SAVINGS", "ACTIVE", "PEN", 0, none, 500⟩
     "r1" 150 "PEN" "d1" "c1" 5
     (by decide) (by decide) (by decide) (by decide) (by decide)
     (by decide) (by decide) (by decide) (by decide) (by decide)⟩

/-- C2: submitting the identical transfer request twice from a state in which
its requestId is fresh: the first call commits; the second identical call
(with any fresh entry ids and clock) returns the same entry identifiers and
the same balances, and returns the first call state unchanged - no
additional ledger rows, no balance change.  The first call added exactly the
two rows. -/
theorem C2_idempotent_replay
    {db : DB} {fid tid : String} {fa ta : Account}
    (rid : String) (amount : Int) (cur ndid ncid ndid2 ncid2 : String) (now now2 : Nat)
    (hfresh : ∀ e ∈ db.ledger, e.tx_id ≠ some rid)
    (hamt : 0 < amount)
    (hfa : findAccount db fid = some fa) (hta : findAccount db tid = some ta)
    (hfas : fa.status = "ACTIVE") (htas : ta.status = "ACTIVE")
    (hcur1 : fa.currency = ta.currency) (hcur2 : fa.currency = pyToUpper cur)
    (hfunds : amount ≤ fa.balance) :
    ∃ db2 d c nf nt,
      apply_transfer_atomic db rid fid tid amount cur ndid ncid now =
        .ok (db2, d, c, nf, nt) ∧
      apply_transfer_atomic db2 rid fid tid amount cur ndid2 ncid2 now2 =
        .ok (db2, d, c, nf, nt) ∧
      db2.ledger.length = db.ledger.length + 2 := by
  have hamt' : ¬ amount ≤ 0 := by omega
  have hfunds' : ¬ fa.balance < amount := by omega
  obtain ⟨db2, heq, hledger, -, -, -, -⟩ :=
    apply_transfer_tx_spec rid amount cur ndid ncid now hfa hta hfas htas hcur1 hcur2 hfunds'
  have hd2 : db2.ledger.find? (debitFor rid) =
      some ⟨ndid, fid, some rid, "DEBIT", amount, now⟩ := by
    rw [hledger, List.find?_append, find?_debitFor_none hfresh, Option.none_or]
    rw [List.find?_cons_of_pos _ (by simp [debitFor])]
  have hc2 : db2.ledger.find? (creditFor rid) =
      some ⟨ncid, tid, some rid, "CREDIT", amount, now⟩ := by
    rw [hledger, List.find?_append, find?_creditFor_none hfresh, Option.none_or]
    rw [List.find?_cons_of_neg _ (by simp [creditFor]),
      List.find?_cons_of_pos _ (by simp [creditFor])]
  refine ⟨db2, ⟨ndid, fid, some rid, "DEBIT", amount, now⟩,
    ⟨ncid, tid, some rid, "CREDIT", amount, now⟩,
    balanceOf db2 fid, balanceOf db2 tid, ?_, ?_, ?_⟩
  · rw [apply_nonreplay_route fid tid cur ndid ncid now hamt'
      (Or.inl (find?_debitFor_none hfresh))]
    exact heq
  · exact apply_replay fid tid cur ndid2 ncid2 now2 hamt' hd2 hc2
  · rw [hledger]
    simp

/-- Witness for C2: the specification scenario replayed with different fresh
ids and clock on the second call. -/
theorem C2_idempotent_replay_witness :
    ((∀ e ∈ (⟨[⟨"a", "cA", "SAVINGS", "ACTIVE", "PEN", 0, none, 1000⟩,
               ⟨"b", "cB", "SAVINGS", "ACTIVE", "PEN", 0, none, 500⟩], []⟩ : DB).ledger,
        e.tx_id ≠ some "r1") ∧
      (0 : Int) < 150 ∧ (150 : Int) ≤ 1000) ∧
    ∃ db2 d c nf nt,
      apply_transfer_atomic
          ⟨[⟨"a", "cA", "SAVINGS", "ACTIVE", "PEN", 0, none, 1000⟩,
            ⟨"b", "cB", "SAVINGS", "ACTIVE", "PEN", 0, none, 500⟩], []⟩
          "r1" "a" "b" 150 "PEN" "d1" "c1" 5 = .ok (db2, d, c, nf, nt) ∧
      apply_transfer_atomic db2 "r1" "a" "b" 150 "PEN" "d9" "c9" 11 =
        .ok (db2, d, c, nf, nt) ∧
      db2.ledger.length =
        (⟨[⟨"a", "cA", "SAVINGS", "ACTIVE", "PEN", 0, none, 1000⟩,
           ⟨"b", "cB", "SAVINGS", "ACTIVE", "PEN", 0, none, 500⟩], []⟩ : DB).ledger.length + 2 :=
  ⟨⟨by decide, by decide, by decide⟩,
   @C2_idempotent_replay
     ⟨[⟨"a", "cA", "SAVINGS", "ACTIVE", "PEN", 0, none, 1000⟩,
       ⟨"b", "cB", "SAVINGS", "ACTIVE", "PEN", 0, none, 500⟩], []⟩
     "a" "b"
     ⟨"a", "cA", "SAVINGS", "ACTIVE", "PEN", 0, none, 1000⟩
     ⟨"b", "cB", "SAVINGS", "ACTIVE", "PEN", 0, none, 500⟩
     "r1" 150 "PEN" "d1" "c1" "d9" "c9" 5 11
     (by decide) (by decide) (by decide) (by decide) (by decide)
     (by decide) (by decide) (by decide) (by decide)⟩

/-- C4 counterexample: a transfer with fromAccount = toAccount commits (the
code accepts it) and produces its DEBIT and CREDIT entries on the same
account, refuting the two-different-accounts part of the invariant as
quantified over every transfer input. -/
theorem C4_counterexample :
    (apply_transfer_atomic
        ⟨[⟨"a", "c", "SAVINGS", "ACTIVE", "USD", 0, none, 10⟩], []⟩
        "r2" "a" "a" 4 "USD" "d1" "c1" 7).toOption.map
      (fun r => (r.2.1.account_id, r.2.2.1.account_id,
                 r.2.1.direction, r.2.2.1.direction, r.1.ledger.length)) =
      some ("a", "a", "DEBIT", "CREDIT", 2) := by
  decide

/-- C4 (amended with distinct accounts): a first-time committed transfer
between two distinct accounts leaves exactly one DEBIT and one CREDIT entry
for its txId, on the two different accounts, with equal amount, and in the
committed state both accounts carry the requested currency. -/
theorem C4_double_entry_invariant
    {db : DB} {fid tid : String} {fa ta : Account}
    (rid : String) (amount : Int) (cur ndid ncid : String) (now : Nat)
    (hne : fid ≠ tid)
    (hfresh : ∀ e ∈ db.ledger, e.tx_id ≠ some rid)
    (hamt : 0 < amount)
    (hfa : findAccount db fid = some fa) (hta : findAccount db tid = some ta)
    (hfas : fa.status = "ACTIVE") (htas : ta.status = "ACTIVE")
    (hcur1 : fa.currency = ta.currency) (hcur2 : fa.currency = pyToUpper cur)
    (hfunds : amount ≤ fa.balance) :
    ∃ db2 d c nf nt,
      apply_transfer_atomic db rid fid tid amount cur ndid ncid now =
        .ok (db2, d, c, nf, nt) ∧
      db2.ledger.filter (debitFor rid) = [d] ∧
      db2.ledger.filter (creditFor rid) = [c] ∧
      d.account_id = fid ∧ c.account_id = tid ∧ d.account_id ≠ c.account_id ∧
      d.amount = amount ∧ c.amount = amount ∧ d.tx_id = some rid ∧ c.tx_id = some rid ∧
      (findAccount db2 fid).map Account.currency = some (pyToUpper cur) ∧
      (findAccount db2 tid).map Account.currency = some (pyToUpper cur) := by
  have hamt' : ¬ amount ≤ 0 := by omega
  have hfunds' : ¬ fa.balance < amount := by omega
  rw [apply_nonreplay_route fid tid cur ndid ncid now hamt'
    (Or.inl (find?_debitFor_none hfresh))]
  obtain ⟨db2, heq, hledger, -, -, hcf, hct⟩ :=
    apply_transfer_tx_spec rid amount cur ndid ncid now hfa hta hfas htas hcur1 hcur2 hfunds'
  have hnilD : db.ledger.filter (debitFor rid) = [] :=
    List.filter_eq_nil_iff.mpr (fun e he => by simp [debitFor, hfresh e he])
  have hnilC : db.ledger.filter (creditFor rid) = [] :=
    List.filter_eq_nil_iff.mpr (fun e he => by simp [creditFor, hfresh e he])
  refine ⟨db2, ⟨ndid, fid, some rid, "DEBIT", amount, now⟩,
    ⟨ncid, tid, some rid, "CREDIT", amount, now⟩,
    balanceOf db2 fid, balanceOf db2 tid,
    heq, ?_, ?_, rfl, rfl, by simpa using hne, rfl, rfl, rfl, rfl, ?_, ?_⟩
  · rw [hledger, List.filter_append, hnilD]
    simp [debitFor]
  · rw [hledger, List.filter_append, hnilC]
    simp [creditFor]
  · rw [hcf, hcur2]
  · rw [hct, ← hcur1, hcur2]

/-- Witness for C4 on two distinct USD accounts. -/
theorem C4_double_entry_invariant_witness :
    (("x" : String) ≠ "y" ∧
      (∀ e ∈ (⟨[⟨"x", "c1", "SAVINGS", "ACTIVE", "USD", 0, none, 40⟩,
                 ⟨"y", "c2", "CHECKING", "ACTIVE", "USD", 0, none, 7⟩], []⟩ : DB).ledger,
        e.tx_id ≠ some "t9") ∧
      (0 : Int) < 15 ∧ (15 : Int) ≤ 40) ∧
    ∃ db2 d c nf nt,
      apply_transfer_atomic
          ⟨[⟨"x", "c1", "SAVINGS", "ACTIVE", "USD", 0, none, 40⟩,
            ⟨"y", "c2", "CHECKING", "ACTIVE", "USD", 0, none, 7⟩], []⟩
          "t9" "x" "y" 15 "USD" "d3" "c3" 2 = .ok (db2, d, c, nf, nt) ∧
      db2.ledger.filter (debitFor "t9") = [d] ∧
      db2.ledger.filter (creditFor "t9") = [c] ∧
      d.account_id = "x" ∧ c.account_id = "y" ∧ d.account_id ≠ c.account_id ∧
      d.amount = 15 ∧ c.amount = 15 ∧ d.tx_id = some "t9" ∧ c.tx_id = some "t9" ∧
      (findAccount db2 "x").map Account.currency = some (pyToUpper "USD") ∧
      (findAccount db2 "y").map Account.currency = some (pyToUpper "USD") :=
  ⟨⟨by decide, by decide, by decide, by decide⟩,
   @C4_double_entry_invariant
     ⟨[⟨"x", "c1", "SAVINGS", "ACTIVE", "USD", 0, none, 40⟩,
       ⟨"y", "c2", "CHECKING", "ACTIVE", "USD", 0, none, 7⟩], []⟩
     "x" "y"
     ⟨"x", "c1", "SAVINGS", "ACTIVE", "USD", 0, none, 40⟩
     ⟨"y", "c2", "CHECKING", "ACTIVE", "USD", 0, none, 7⟩
     "t9" 15 "USD" "d3" "c3" 2
     (by decide) (by decide) (by decide) (by decide) (by decide)
     (by decide) (by decide) (by decide) (by decide) (by decide)⟩

/-- C5 counterexample: the /internal/transfer handler takes the
idempotent-replay path when only a DEBIT row exists for the key (no CREDIT
row), returning creditEntryId = none and mutating nothing - the claim says
the replay path is not taken unless both directions exist. -/
theorem C5_counterexample :
    transfer_funds ⟨[], [⟨"e1", "a", some "rX", "DEBIT", 7, 1⟩]⟩
        ⟨"rX", "a", "b", 150, "PEN", none⟩ "d2" "c2" 5 =
      .ok (⟨[], [⟨"e1", "a", some "rX", "DEBIT", 7, 1⟩]⟩,
           ⟨"OK", some "e1", none, 0, 0, some "Idempotent replay"⟩) ∧
    ((⟨[], [⟨"e1", "a", some "rX", "DEBIT", 7, 1⟩]⟩ : DB).ledger.find? (creditFor "rX"))
      = none := by
  exact ⟨rfl, rfl⟩

/-- C5 (amended): for a positive amount, apply_transfer_atomic takes the
no-mutation replay path exactly when both a DEBIT and a CREDIT row exist for
the requestId, while the /internal/transfer handler takes the replay path
exactly when at least one row (of either direction) exists for it. -/
theorem C5_replay_condition {db : DB} (rid fid tid : String) (amount : Int)
    (cur ndid ncid : String) (now : Nat) (hamt : 0 < amount) :
    ((∃ d c nf nt, apply_transfer_atomic db rid fid tid amount cur ndid ncid now =
        .ok (db, d, c, nf, nt)) ↔
      (db.ledger.find? (debitFor rid)).isSome ∧
        (db.ledger.find? (creditFor rid)).isSome) ∧
    ((∃ db2 resp, transfer_funds db ⟨rid, fid, tid, amount, cur, none⟩ ndid ncid now =
        .ok (db2, resp) ∧ resp.message = some "Idempotent replay") ↔
      (db.ledger.find? (entryFor rid)).isSome) := by
  have hamt' : ¬ amount ≤ 0 := by omega
  constructor
  · constructor
    · rintro ⟨d, c, nf, nt, h⟩
      cases hd : db.ledger.find? (debitFor rid) with
      | none =>
        rw [apply_nonreplay_route fid tid cur ndid ncid now hamt' (Or.inl hd)] at h
        have hlen := congrArg (fun l => l.length) (apply_transfer_tx_ledger h)
        simp at hlen
      | some ed =>
        cases hc : db.ledger.find? (creditFor rid) with
        | none =>
          rw [apply_nonreplay_route fid tid cur ndid ncid now hamt' (Or.inr hc)] at h
          have hlen := congrArg (fun l => l.length) (apply_transfer_tx_ledger h)
          simp at hlen
        | some ec => simp
    · rintro ⟨hd, hc⟩
      obtain ⟨ed, hed⟩ := Option.isSome_iff_exists.mp hd
      obtain ⟨ec, hec⟩ := Option.isSome_iff_exists.mp hc
      exact ⟨ed, ec, _, _, apply_replay fid tid cur ndid ncid now hamt' hed hec⟩
  · constructor
    · rintro ⟨db2, resp, h, hmsg⟩
      cases he : db.ledger.find? (entryFor rid) with
      | none =>
        rw [transfer_funds_fresh_route ndid ncid now hamt' he] at h
        rw [transfer_funds_tx_message h] at hmsg
        exact absurd hmsg (by decide)
      | some e => simp
    · intro he
      obtain ⟨e, hee⟩ := Option.isSome_iff_exists.mp he
      exact ⟨db, _, transfer_funds_replay ndid ncid now hamt' hee, rfl⟩

/-- Witness for C5 on a ledger holding both legs of the committed request. -/
theorem C5_replay_condition_witness :
    (0 : Int) < 5 ∧
    ((∃ d c nf nt, apply_transfer_atomic
        ⟨[], [⟨"d0", "a", some "rW", "DEBIT", 5, 1⟩,
              ⟨"c0", "b", some "rW", "CREDIT", 5, 1⟩]⟩
        "rW" "a" "b" 5 "PEN" "d1" "c1" 9 =
        .ok (⟨[], [⟨"d0", "a", some "rW", "DEBIT", 5, 1⟩,
                   ⟨"c0", "b", some "rW", "CREDIT", 5, 1⟩]⟩, d, c, nf, nt)) ↔
      ((⟨[], [⟨"d0", "a", some "rW", "DEBIT", 5, 1⟩,
              ⟨"c0", "b", some "rW", "CREDIT", 5, 1⟩]⟩ : DB).ledger.find?
          (debitFor "rW")).isSome ∧
        ((⟨[], [⟨"d0", "a", some "rW", "DEBIT", 5, 1⟩,
                ⟨"c0", "b", some "rW", "CREDIT", 5, 1⟩]⟩ : DB).ledger.find?
          (creditFor "rW")).isSome) ∧
    ((∃ db2 resp, transfer_funds
        ⟨[], [⟨"d0", "a", some "rW", "DEBIT", 5, 1⟩,
              ⟨"c0", "b", some "rW", "CREDIT", 5, 1⟩]⟩
        ⟨"rW", "a", "b", 5, "PEN", none⟩ "d1" "c1" 9 =
        .ok (db2, resp) ∧ resp.message = some "Idempotent replay") ↔
      ((⟨[], [⟨"d0", "a", some "rW", "DEBIT", 5, 1⟩,
              ⟨"c0", "b", some "rW", "CREDIT", 5, 1⟩]⟩ : DB).ledger.find?
          (entryFor "rW")).isSome) :=
  ⟨by decide,
   @C5_replay_condition
     ⟨[], [⟨"d0", "a", some "rW", "DEBIT", 5, 1⟩,
           ⟨"c0", "b", some "rW", "CREDIT", 5, 1⟩]⟩
     "rW" "a" "b" 5 "PEN" "d1" "c1" 9 (by decide)⟩

/-- C6 counterexample: a request whose requestId already has both committed
entries but carries a non-positive amount is rejected with the amount
validation error instead of returning the idempotent-replay success: the
code validates the amount before the idempotency lookup. -/
theorem C6_counterexample :
    apply_transfer_atomic
        ⟨[], [⟨"d0", "a", some "rY", "DEBIT", 5, 1⟩,
              ⟨"c0", "b", some "rY", "CREDIT", 5, 1⟩]⟩
        "rY" "a" "b" 0 "PEN" "d1" "c1" 9 = .error ⟨"Amount must be > 0", 422⟩ ∧
    ((⟨[], [⟨"d0", "a", some "rY", "DEBIT", 5, 1⟩,
            ⟨"c0", "b", some "rY", "CREDIT", 5, 1⟩]⟩ : DB).ledger.find?
        (debitFor "rY")).isSome = true ∧
    ((⟨[], [⟨"d0", "a", some "rY", "DEBIT", 5, 1⟩,
            ⟨"c0", "b", some "rY", "CREDIT", 5, 1⟩]⟩ : DB).ledger.find?
        (creditFor "rY")).isSome = true := by
  exact ⟨rfl, rfl, rfl⟩

/-- C6 (amended): amount validation precedes the idempotency check - a
non-positive amount is always rejected first, before the idempotency query
and before any locking, and a request with positive amount whose requestId
already has both committed entries gets the idempotent replay. -/
theorem C6_amount_check_precedes_idempotency
    {db : DB} {rid : String} (fid tid : String) {amount : Int}
    (cur ndid ncid : String) (now : Nat) {ed ec : LedgerEntry}
    (hd : db.ledger.find? (debitFor rid) = some ed)
    (hc : db.ledger.find? (creditFor rid) = some ec) :
    (amount ≤ 0 → apply_transfer_atomic db rid fid tid amount cur ndid ncid now =
        .error ⟨"Amount must be > 0", 422⟩) ∧
    (0 < amount → apply_transfer_atomic db rid fid tid amount cur ndid ncid now =
        .ok (db, ed, ec, balanceOf db fid, balanceOf db tid)) := by
  constructor
  · intro hle
    unfold apply_transfer_atomic
    rw [if_pos hle]
  · intro hgt
    exact apply_replay fid tid cur ndid ncid now (by omega) hd hc

/-- Witness for C6 on a ledger holding both committed legs. -/
theorem C6_amount_check_witness :
    ((⟨[], [⟨"d0", "a", some "rV", "DEBIT", 5, 1⟩,
            ⟨"c0", "b", some "rV", "CREDIT", 5, 1⟩]⟩ : DB).ledger.find? (debitFor "rV") =
        some ⟨"d0", "a", some "rV", "DEBIT", 5, 1⟩ ∧
      (⟨[], [⟨"d0", "a", some "rV", "DEBIT", 5, 1⟩,
             ⟨"c0", "b", some "rV", "CREDIT", 5, 1⟩]⟩ : DB).ledger.find? (creditFor "rV") =
        some ⟨"c0", "b", some "rV", "CREDIT", 5, 1⟩) ∧
    (((0 : Int) ≤ 0 → apply_transfer_atomic
        ⟨[], [⟨"d0", "a", some "rV", "DEBIT", 5, 1⟩,
              ⟨"c0", "b", some "rV", "CREDIT", 5, 1⟩]⟩
        "rV" "a" "b" 0 "PEN" "d1" "c1" 9 = .error ⟨"Amount must be > 0", 422⟩) ∧
      ((0 : Int) < 0 → apply_transfer_atomic
        ⟨[], [⟨"d0", "a", some "rV", "DEBIT", 5, 1⟩,
              ⟨"c0", "b", some "rV", "CREDIT", 5, 1⟩]⟩
        "rV" "a" "b" 0 "PEN" "d1" "c1" 9 =
        .ok (⟨[], [⟨"d0", "a", some "rV", "DEBIT", 5, 1⟩,
                   ⟨"c0", "b", some "rV", "CREDIT", 5, 1⟩]⟩,
             ⟨"d0", "a", some "rV", "DEBIT", 5, 1⟩,
             ⟨"c0", "b", some "rV", "CREDIT", 5, 1⟩,
             balanceOf ⟨[], [⟨"d0", "a", some "rV", "DEBIT", 5, 1⟩,
                             ⟨"c0", "b", some "rV", "CREDIT", 5, 1⟩]⟩ "a",
             balanceOf ⟨[], [⟨"d0", "a", some "rV", "DEBIT", 5, 1⟩,
                             ⟨"c0", "b", some "rV", "CREDIT", 5, 1⟩]⟩ "b"))) :=
  ⟨⟨rfl, rfl⟩,
   @C6_amount_check_precedes_idempotency
     ⟨[], [⟨"d0", "a", some "rV", "DEBIT", 5, 1⟩,
           ⟨"c0", "b", some "rV", "CREDIT", 5, 1⟩]⟩
     "rV" "a" "b" 0 "PEN" "d1" "c1" 9
     ⟨"d0", "a", some "rV", "DEBIT", 5, 1⟩
     ⟨"c0", "b", some "rV", "CREDIT", 5, 1⟩ rfl rfl⟩

/-- C7 counterexample: a replay request whose requested currency does not
match the (equal) account currencies is answered with the replay success,
not rejected, because the code never reaches currency validation on the
replay path. -/
theorem C7_counterexample :
    apply_transfer_atomic
        ⟨[⟨"a", "c1", "SAVINGS", "ACTIVE", "USD", 0, none, 10⟩,
          ⟨"b", "c2", "SAVINGS", "ACTIVE", "USD", 0, none, 5⟩],
         [⟨"d0", "a", some "rZ", "DEBIT", 5, 1⟩,
          ⟨"c0", "b", some "rZ", "CREDIT", 5, 1⟩]⟩
        "rZ" "a" "b" 5 "PEN" "d1" "c1" 9 =
      .ok (⟨[⟨"a", "c1", "SAVINGS", "ACTIVE", "USD", 0, none, 10⟩,
             ⟨"b", "c2", "SAVINGS", "ACTIVE", "USD", 0, none, 5⟩],
            [⟨"d0", "a", some "rZ", "DEBIT", 5, 1⟩,
             ⟨"c0", "b", some "rZ", "CREDIT", 5, 1⟩]⟩,
           ⟨"d0", "a", some "rZ", "DEBIT", 5, 1⟩,
           ⟨"c0", "b", some "rZ", "CREDIT", 5, 1⟩, 10, 5) ∧
    ("USD" : String) ≠ pyToUpper "PEN" := by
  exact ⟨rfl, by decide⟩

/-- C7 (amended): a non-replay transfer request (at least one leg missing
for its requestId) between existing accounts whose source, destination and
requested currencies do not all match is rejected; the model returns errors
without a state, mirroring the code that raises before any write. -/
theorem C7_currency_mismatch_rejected
    {db : DB} {fid tid : String} {fa ta : Account}
    (rid : String) (amount : Int) (cur ndid ncid : String) (now : Nat)
    (hnon : db.ledger.find? (debitFor rid) = none ∨
            db.ledger.find? (creditFor rid) = none)
    (hfa : findAccount db fid = some fa) (hta : findAccount db tid = some ta)
    (hmis : ¬ (fa.currency = ta.currency ∧ fa.currency = pyToUpper cur)) :
    ∃ e, apply_transfer_atomic db rid fid tid amount cur ndid ncid now = .error e := by
  by_cases hamt : amount ≤ 0
  · refine ⟨⟨"Amount must be > 0", 422⟩, ?_⟩
    unfold apply_transfer_atomic
    rw [if_pos hamt]
  · rw [apply_nonreplay_route fid tid cur ndid ncid now hamt hnon]
    exact apply_transfer_tx_currency_reject rid amount cur ndid ncid now hfa hta hmis

/-- Witness for C7: USD source, PEN destination, USD request (test scenario
3 of the repository). -/
theorem C7_currency_mismatch_witness :
    ((⟨[⟨"a", "c1", "SAVINGS", "ACTIVE", "USD", 0, none, 1000⟩,
        ⟨"b", "c2", "SAVINGS", "ACTIVE", "PEN", 0, none, 1000⟩], []⟩ : DB).ledger.find?
        (debitFor "rQ") = none ∨
      (⟨[⟨"a", "c1", "SAVINGS", "ACTIVE", "USD", 0, none, 1000⟩,
         ⟨"b", "c2", "SAVINGS", "ACTIVE", "PEN", 0, none, 1000⟩], []⟩ : DB).ledger.find?
        (creditFor "rQ") = none) ∧
      ¬ (("USD" : String) = "PEN" ∧ ("USD" : String) = pyToUpper "USD") ∧
    ∃ e, apply_transfer_atomic
        ⟨[⟨"a", "c1", "SAVINGS", "ACTIVE", "USD", 0, none, 1000⟩,
          ⟨"b", "c2", "SAVINGS", "ACTIVE", "PEN", 0, none, 1000⟩], []⟩
        "rQ" "a" "b" 10 "USD" "d1" "c1" 3 = .error e :=
  ⟨Or.inl rfl, by decide,
   @C7_currency_mismatch_rejected
     ⟨[⟨"a", "c1", "SAVINGS", "ACTIVE", "USD", 0, none, 1000⟩,
       ⟨"b", "c2", "SAVINGS", "ACTIVE", "PEN", 0, none, 1000⟩], []⟩
     "a" "b"
     ⟨"a", "c1", "SAVINGS", "ACTIVE", "USD", 0, none, 1000⟩
     ⟨"b", "c2", "SAVINGS", "ACTIVE", "PEN", 0, none, 1000⟩
     "rQ" 10 "USD" "d1" "c1" 3 (Or.inl rfl) rfl rfl (by decide)⟩

/-- C8: a non-replay transfer that passes status and currency validation is
rejected with the insufficient-funds error exactly when the source balance
is strictly below the amount; a balance equal to the amount succeeds.  The
model returns errors without a state: rejection mutates nothing. -/
theorem C8_insufficient_funds_iff
    {db : DB} {fid tid : String} {fa ta : Account}
    (rid : String) (amount : Int) (cur ndid ncid : String) (now : Nat)
    (hamt : 0 < amount)
    (hnonD : db.ledger.find? (debitFor rid) = none)
    (hfa : findAccount db fid = some fa) (hta : findAccount db tid = some ta)
    (hfas : fa.status = "ACTIVE") (htas : ta.status = "ACTIVE")
    (hcur1 : fa.currency = ta.currency) (hcur2 : fa.currency = pyToUpper cur) :
    (apply_transfer_atomic db rid fid tid amount cur ndid ncid now =
        .error ⟨"Insufficient funds", 400⟩) ↔ fa.balance < amount := by
  have hamt' : ¬ amount ≤ 0 := by omega
  rw [apply_nonreplay_route fid tid cur ndid ncid now hamt' (Or.inl hnonD)]
  constructor
  · intro h
    by_contra hge
    obtain ⟨db2, heq, -, -, -, -, -⟩ :=
      apply_transfer_tx_spec rid amount cur ndid ncid now hfa hta hfas htas hcur1 hcur2 hge
    rw [heq] at h
    exact Except.noConfusion h
  · intro hlt
    exact apply_transfer_tx_insufficient rid amount cur ndid ncid now
      hfa hta hfas htas hcur1 hcur2 hlt

/-- Witness for C8 on the insufficient scenario A(50 PEN) paying 100, where
the rejection side of the equivalence holds. -/
theorem C8_insufficient_funds_witness :
    ((0 : Int) < 100 ∧
      (⟨[⟨"a", "c1", "SAVINGS", "ACTIVE", "PEN", 0, none, 50⟩,
         ⟨"b", "c2", "SAVINGS", "ACTIVE", "PEN", 0, none, 0⟩], []⟩ : DB).ledger.find?
        (debitFor "rI") = none) ∧
    ((apply_transfer_atomic
        ⟨[⟨"a", "c1", "SAVINGS", "ACTIVE", "PEN", 0, none, 50⟩,
          ⟨"b", "c2", "SAVINGS", "ACTIVE", "PEN", 0, none, 0⟩], []⟩
        "rI" "a" "b" 100 "PEN" "d1" "c1" 3 =
        .error ⟨"Insufficient funds", 400⟩) ↔ (50 : Int) < 100) :=
  ⟨⟨by decide, rfl⟩,
   @C8_insufficient_funds_iff
     ⟨[⟨"a", "c1", "SAVINGS", "ACTIVE", "PEN", 0, none, 50⟩,
       ⟨"b", "c2", "SAVINGS", "ACTIVE", "PEN", 0, none, 0⟩], []⟩
     "a" "b"
     ⟨"a", "c1", "SAVINGS", "ACTIVE", "PEN", 0, none, 50⟩
     ⟨"b", "c2", "SAVINGS", "ACTIVE", "PEN", 0, none, 0⟩
     "rI" 100 "PEN" "d1" "c1" 3
     (by decide) rfl rfl rfl (by decide) (by decide) (by decide) (by decide)⟩

/-- C9: the lock acquisition order of the transfer paths is
caller-independent and ascending: sorting the two id strings yields the same
pair for (a, b) and (b, a), and the first id locked is <= the second in the
code-point lexicographic order used by Python sorted.  ids_sorted is
exactly the order in which lock_accounts_for_update and the inline handler
issue their FOR UPDATE queries. -/
theorem C9_lock_order_caller_independent (a b : String) :
    ids_sorted a b = ids_sorted b a ∧
      pyLe (ids_sorted a b).1 (ids_sorted a b).2 = true := by
  constructor
  · unfold ids_sorted
    by_cases h : pyLe a b = true
    · by_cases h2 : pyLe b a = true
      · have hab : a = b := pyLe_antisymm h h2
        subst hab
        simp
      · have h2' : pyLe b a = false := by
          cases hx : pyLe b a with
          | true => exact absurd hx h2
          | false => rfl
        rw [if_pos h, if_neg (by simp [h2'])]
    · have h' : pyLe a b = false := by
        cases hx : pyLe a b with
        | true => exact absurd hx h
        | false => rfl
      rw [if_neg (by simp [h']), if_pos (pyLe_total h')]
  · unfold ids_sorted
    by_cases h : pyLe a b = true
    · rw [if_pos h]
      exact h
    · have h' : pyLe a b = false := by
        cases hx : pyLe a b with
        | true => exact absurd hx h
        | false => rfl
      rw [if_neg (by simp [h'])]
      exact pyLe_total h'

/-- C10 counterexample: a CLOSED account (closed_at = 3) is reopened to
ACTIVE by update_account_status, and closing it again overwrites closed_at
with the new clock 9 - CLOSED is neither terminal nor is closed_at written
exactly once. -/
theorem C10_counterexample :
    update_account_status
        ⟨[⟨"a", "c", "SAVINGS", "CLOSED", "PEN", 0, some 3, 0⟩], []⟩ "a" "ACTIVE" 9 =
      some (⟨[⟨"a", "c", "SAVINGS", "ACTIVE", "PEN", 0, some 3, 0⟩], []⟩,
            ⟨"a", "c", "SAVINGS", "ACTIVE", "PEN", 0, some 3, 0⟩) ∧
    update_account_status
        ⟨[⟨"a", "c", "SAVINGS", "CLOSED", "PEN", 0, some 3, 0⟩], []⟩ "a" "CLOSED" 9 =
      some (⟨[⟨"a", "c", "SAVINGS", "CLOSED", "PEN", 0, some 9, 0⟩], []⟩,
            ⟨"a", "c", "SAVINGS", "CLOSED", "PEN", 0, some 9, 0⟩) ∧
    (some 9 : Option Nat) ≠ some 3 := by
  exact ⟨rfl, rfl, by decide⟩

/-- C10 (amended): update_account_status applies any requested status
unconditionally to an existing account - CLOSED is not terminal - and
closed_at is rewritten to the current clock on every transition into CLOSED
while being left untouched by every other update; balances are never
changed. -/
theorem C10_status_update_unconditional {db : DB} {aid : String} {acc : Account}
    (st : String) (now : Nat) (h : findAccount db aid = some acc) :
    ∃ db2 acc2, update_account_status db aid st now = some (db2, acc2) ∧
      acc2.status = pyToUpper st ∧
      acc2.closed_at = (if pyToUpper st = "CLOSED" then some now else acc.closed_at) ∧
      acc2.balance = acc.balance := by
  unfold update_account_status
  rw [h]
  by_cases hcl : (pyToUpper st == "CLOSED") = true
  · have hcl' : pyToUpper st = "CLOSED" := by simpa using hcl
    simp only [hcl, if_true]
    exact ⟨_, _, rfl, rfl, by rw [if_pos hcl'], rfl⟩
  · have hcl' : ¬ pyToUpper st = "CLOSED" := by simpa using hcl
    simp only [hcl, if_false, Bool.false_eq_true]
    exact ⟨_, _, rfl, rfl, by rw [if_neg hcl'], rfl⟩

/-- Witness for C10: reopening a CLOSED account. -/
theorem C10_status_update_witness :
    findAccount ⟨[⟨"a", "c", "SAVINGS", "CLOSED", "PEN", 0, some 3, 0⟩], []⟩ "a" =
      some ⟨"a", "c", "SAVINGS", "CLOSED", "PEN", 0, some 3, 0⟩ ∧
    ∃ db2 acc2,
      update_account_status
          ⟨[⟨"a", "c", "SAVINGS", "CLOSED", "PEN", 0, some 3, 0⟩], []⟩ "a" "ACTIVE" 9 =
        some (db2, acc2) ∧
      acc2.status = pyToUpper "ACTIVE" ∧
      acc2.closed_at =
        (if pyToUpper "ACTIVE" = "CLOSED" then some 9
         else (⟨"a", "c", "SAVINGS", "CLOSED", "PEN", 0, some 3, 0⟩ : Account).closed_at) ∧
      acc2.balance = (⟨"a", "c", "SAVINGS", "CLOSED", "PEN", 0, some 3, 0⟩ : Account).balance :=
  ⟨rfl,
   @C10_status_update_unconditional
     ⟨[⟨"a", "c", "SAVINGS", "CLOSED", "PEN", 0, some 3, 0⟩], []⟩ "a"
     ⟨"a", "c", "SAVINGS", "CLOSED", "PEN", 0, some 3, 0⟩ "ACTIVE" 9 rfl⟩
